import Mathlib

/-!
Verification of the distributed card-game server
(repository Problema2-Concorrencia-Conectividade).

This file shallowly embeds the parts of the Go source relevant to the
specification claims: the card comparison and rarity sampling, the
inventory withdrawal with rarity downgrade, the Host event processor and
trick resolution, the Shadow replication handler, the Shadow-to-Host
forwarding with failover, and the leader-election vote/announce protocol.
Machine integers (`int`, `int64`) are modelled as `Int`; the values
involved (card powers 1..120, terms, sequence numbers) never approach
the 64-bit range, so no wraparound modelling is needed.  Go maps keyed
by strings are modelled as association lists with first-match lookup and
in-place replacement on insert, matching Go map semantics for the
reachable states (distinct keys).  Randomness (`rand.Intn`) is modelled
by passing the drawn values as explicit inputs.
-/

namespace JogoDistribuido

/-- `protocolo.Carta`: a card (unique id, display name, suit, power, rarity). -/
structure Carta where
  id : String
  nome : String
  naipe : String
  valor : Int
  raridade : String
deriving DecidableEq, Repr

/-- The suit-rank map `naipes := map[string]int{"♠": 4, "♥": 3, "♦": 2, "♣": 1}`
from `compararCartas`; a missing key yields Go's zero value 0. -/
def naipeValor (n : String) : Int :=
  if n = "♠" then 4
  else if n = "♥" then 3
  else if n = "♦" then 2
  else if n = "♣" then 1
  else 0

/-- `compararCartas` (servidor/main.go): power difference, suit-rank
difference on equal power. -/
def compararCartas (c1 c2 : Carta) : Int :=
  if c1.valor ≠ c2.valor then c1.valor - c2.valor
  else naipeValor c1.naipe - naipeValor c2.naipe

/-- `sampleRaridade`: maps the draw `x = rand.Intn(100)` to a rarity tag. -/
def sampleRaridade (x : Nat) : String :=
  if x < 70 then "C"
  else if x < 90 then "U"
  else if x < 99 then "R"
  else "L"

/-- C7: the trick comparison is a pure function of (power, suit): it is
positive exactly when the first card has higher power, or equal power and
a strictly higher suit rank; zero exactly when power and suit rank agree;
and it is antisymmetric: `compararCartas c1 c2 = -(compararCartas c2 c1)`. -/
theorem compararCartas_determinism (c1 c2 : Carta) :
    (0 < compararCartas c1 c2 ↔
      (c2.valor < c1.valor ∨
        (c1.valor = c2.valor ∧ naipeValor c2.naipe < naipeValor c1.naipe)))
    ∧ (compararCartas c1 c2 = 0 ↔
        (c1.valor = c2.valor ∧ naipeValor c1.naipe = naipeValor c2.naipe))
    ∧ compararCartas c1 c2 = -compararCartas c2 c1 := by
  unfold compararCartas
  by_cases h : c1.valor = c2.valor
  · rw [if_neg (fun hn => hn h), if_neg (fun hn => hn h.symm)]
    constructor
    · omega
    constructor
    · omega
    · omega
  · rw [if_pos h, if_pos (fun hc => h hc.symm)]
    constructor
    · omega
    constructor
    · omega
    · omega

/-- C9: of the 100 equiprobable outcomes of `rand.Intn(100)`, exactly 70
map to Common, 20 to Uncommon, 9 to Rare and 1 to Legendary, and every
outcome maps into {C, U, R, L}. -/
theorem sampleRaridade_distribution :
    ((Finset.range 100).filter (fun x => sampleRaridade x = "C")).card = 70
    ∧ ((Finset.range 100).filter (fun x => sampleRaridade x = "U")).card = 20
    ∧ ((Finset.range 100).filter (fun x => sampleRaridade x = "R")).card = 9
    ∧ ((Finset.range 100).filter (fun x => sampleRaridade x = "L")).card = 1
    ∧ ∀ x : Nat, sampleRaridade x = "C" ∨ sampleRaridade x = "U"
        ∨ sampleRaridade x = "R" ∨ sampleRaridade x = "L" := by
  refine ⟨by decide, by decide, by decide, by decide, ?_⟩
  intro x
  unfold sampleRaridade
  split_ifs <;> simp

/-! ## Inventory (Estoque) -/

/-- The rarity-partitioned pool `Estoque map[string][]Carta`; the four keys
`"C"`, `"U"`, `"R"`, `"L"` are the only ones ever populated
(`inicializarEstoque`). -/
structure Estoque where
  comuns : List Carta
  incomuns : List Carta
  raras : List Carta
  lendarias : List Carta
deriving DecidableEq, Repr

/-- Read `s.Estoque[r]`; an unknown key yields Go's zero value `[]`. -/
def Estoque.get (e : Estoque) (rar : String) : List Carta :=
  if rar = "L" then e.lendarias
  else if rar = "R" then e.raras
  else if rar = "U" then e.incomuns
  else if rar = "C" then e.comuns
  else []

/-- Write `s.Estoque[r] = cartas`. -/
def Estoque.set (e : Estoque) (rar : String) (cartas : List Carta) : Estoque :=
  if rar = "L" then { e with lendarias := cartas }
  else if rar = "R" then { e with raras := cartas }
  else if rar = "U" then { e with incomuns := cartas }
  else if rar = "C" then { e with comuns := cartas }
  else e

/-- `contarEstoque`: total number of pooled cards. -/
def contarEstoque (e : Estoque) : Nat :=
  e.comuns.length + e.incomuns.length + e.raras.length + e.lendarias.length

/-- The suffix `ordem[start:]` of `ordem := []string{"L","R","U","C"}`
selected by the `switch raridade` in `retirarCartasDoEstoque`
(default branch: start at `"C"`). -/
def ordemDowngrade (raridade : String) : List String :=
  if raridade = "L" then ["L", "R", "U", "C"]
  else if raridade = "R" then ["R", "U", "C"]
  else if raridade = "U" then ["U", "C"]
  else ["C"]

/-- Go's zero-value `Carta`. -/
def cartaZero : Carta := { id := "", nome := "", naipe := "", valor := 0, raridade := "" }

/-- The inner `for j := start; ...` loop of `retirarCartasDoEstoque`: take
the last card of the first non-empty rarity in the scanned order, removing
it from the pool; `none` when every scanned rarity is empty. -/
def tentarRetirar (e : Estoque) : List String → Option (Carta × Estoque)
  | [] => none
  | rar :: resto =>
    let cartas := e.get rar
    if cartas.isEmpty then tentarRetirar e resto
    else some (cartas.getLastD cartaZero, e.set rar cartas.dropLast)

/-- `gerarCartaComum`: mint a synthetic Common card.  The fresh uuid and the
`rand.Intn` draws are explicit inputs. -/
def gerarCartaComum (freshID : String) (nomeR naipeR valorR : Nat) : Carta :=
  { id := freshID
  , nome := ["Guerreiro", "Arqueiro", "Mago", "Cavaleiro", "Ladrão"].getD (nomeR % 5) ""
  , naipe := ["♠", "♥", "♦", "♣"].getD (naipeR % 4) ""
  , valor := ((1 + valorR % 50 : Nat) : Int)
  , raridade := "C" }

/-- `retirarCartasDoEstoque`: one slot per entry of `xs`, each entry being
that slot's `rand.Intn(100)` draw fed to `sampleRaridade`; `mint` supplies
the synthetic Common of the exhausted branch (`gerarCartaComum`), indexed so
that distinct slots mint distinct cards. -/
def retirarCartasDoEstoque (mint : Nat → Carta) : List Nat → Estoque → List Carta × Estoque
  | [], e => ([], e)
  | x :: xs, e =>
    match tentarRetirar e (ordemDowngrade (sampleRaridade x)) with
    | some (carta, e2) =>
      let resto := retirarCartasDoEstoque mint xs e2
      (carta :: resto.1, resto.2)
    | none =>
      let resto := retirarCartasDoEstoque mint xs e
      (mint xs.length :: resto.1, resto.2)

/-- Number of slots of a `retirarCartasDoEstoque` run that hit the mint
branch (pool exhausted for the sampled rarity and everything below it). -/
def slotsMintados : List Nat → Estoque → Nat
  | [], _ => 0
  | x :: xs, e =>
    match tentarRetirar e (ordemDowngrade (sampleRaridade x)) with
    | some (_, e2) => slotsMintados xs e2
    | none => 1 + slotsMintados xs e

theorem tentarRetirar_contar {suf : List String} {e : Estoque} {c : Carta} {e2 : Estoque}
    (h : tentarRetirar e suf = some (c, e2)) : contarEstoque e2 + 1 = contarEstoque e := by
  induction suf with
  | nil => simp [tentarRetirar] at h
  | cons rar resto ih =>
    unfold tentarRetirar at h
    by_cases hv : (e.get rar).isEmpty
    · rw [if_pos hv] at h
      exact ih h
    · rw [if_neg hv] at h
      have hne : e.get rar ≠ [] := by
        intro hh
        rw [hh] at hv
        exact hv rfl
      have he2 : e2 = e.set rar (e.get rar).dropLast := by
        have := h
        simp only [Option.some.injEq, Prod.mk.injEq] at this
        exact this.2.symm
      subst he2
      have hlen : (e.get rar).dropLast.length + 1 = (e.get rar).length := by
        rw [List.length_dropLast]
        have : 0 < (e.get rar).length := List.length_pos.mpr hne
        omega
      unfold Estoque.get at hlen hne ⊢
      unfold Estoque.set contarEstoque
      split_ifs at hlen hne ⊢ <;> simp_all <;> omega

theorem slotsMintados_le (xs : List Nat) (e : Estoque) : slotsMintados xs e ≤ xs.length := by
  induction xs generalizing e with
  | nil => simp [slotsMintados]
  | cons x xs ih =>
    unfold slotsMintados
    cases h : tentarRetirar e (ordemDowngrade (sampleRaridade x)) with
    | none =>
      simp only [List.length_cons]
      have := ih e
      omega
    | some p =>
      simp only [List.length_cons]
      have := ih p.2
      omega

/-- C5 (amended): the allocation returns exactly one card per requested slot
(5 for a pack); the pool shrinks by exactly the number of non-minted returned
cards; and a slot mints a synthetic Common exactly when the sampled rarity
and every rarity below it in the order L→R→U→C are exhausted. -/
theorem retirarCartasDoEstoque_spec (mint : Nat → Carta) (xs : List Nat) (e : Estoque) :
    (retirarCartasDoEstoque mint xs e).1.length = xs.length
    ∧ contarEstoque (retirarCartasDoEstoque mint xs e).2
        + (xs.length - slotsMintados xs e) = contarEstoque e
    ∧ ∀ x : Nat, ∀ e3 : Estoque,
        (tentarRetirar e3 (ordemDowngrade (sampleRaridade x))).isNone
          = (ordemDowngrade (sampleRaridade x)).all (fun rar => (e3.get rar).isEmpty) := by
  refine ⟨?_, ?_, ?_⟩
  · induction xs generalizing e with
    | nil => simp [retirarCartasDoEstoque]
    | cons x xs ih =>
      unfold retirarCartasDoEstoque
      cases h : tentarRetirar e (ordemDowngrade (sampleRaridade x)) with
      | none => simp [ih e]
      | some p => simp [ih p.2]
  · induction xs generalizing e with
    | nil => simp [retirarCartasDoEstoque, slotsMintados]
    | cons x xs ih =>
      unfold retirarCartasDoEstoque slotsMintados
      cases h : tentarRetirar e (ordemDowngrade (sampleRaridade x)) with
      | none =>
        simp only [List.length_cons]
        have hle := slotsMintados_le xs e
        have := ih e
        omega
      | some p =>
        simp only [List.length_cons]
        have hle := slotsMintados_le xs p.2
        have hc : contarEstoque p.2 + 1 = contarEstoque e := tentarRetirar_contar h
        have := ih p.2
        omega
  · intro x e3
    generalize ordemDowngrade (sampleRaridade x) = suf
    induction suf with
    | nil => simp [tentarRetirar]
    | cons rar resto ih =>
      unfold tentarRetirar
      by_cases hv : (e3.get rar).isEmpty
      · rw [if_pos hv]
        simp [hv, ih]
      · rw [if_neg hv]
        simp [hv]

/-- A concrete Uncommon card. -/
def cartaC5 : Carta := { id := "u-1", nome := "Mago", naipe := "♦", valor := 60, raridade := "U" }

/-- A pool whose Common partition is empty but whose Uncommon partition
still holds a card. -/
def estoqueC5 : Estoque := { comuns := [], incomuns := [cartaC5], raras := [], lendarias := [] }

/-- The mint source for the C5 counterexample run. -/
def mintC5 : Nat → Carta := fun n => gerarCartaComum (toString n) 0 0 0

/-- C5 counterexample: with draw 0 the sampled rarity is Common; the Common
partition is empty but Uncommon is not (only 3 of the 4 rarities are
exhausted), yet the slot mints a synthetic card and the pool is left
untouched — refuting "it mints a fresh synthetic Common only when all four
rarities are exhausted". -/
theorem retirarCartasDoEstoque_counterexample :
    sampleRaridade 0 = "C"
    ∧ estoqueC5.incomuns = [cartaC5]
    ∧ (retirarCartasDoEstoque mintC5 [0] estoqueC5).1 = [mintC5 0]
    ∧ (retirarCartasDoEstoque mintC5 [0] estoqueC5).2 = estoqueC5 := by
  refine ⟨rfl, rfl, rfl, rfl⟩

/-! ## Match engine: `tipos.Sala`, the Host event processor, trick resolution,
Shadow replication and Shadow→Host forwarding with failover.

Go string maps are association lists with first-match lookup (`lookupA`)
and replace-or-append insertion (`insertA`).  Outbound MQTT publications
are collected in a `List Saida`.  Asynchronous goroutines launched by the
processor (`verificarEIniciarPartidaSeProntos`, the replication POST) are
separate steps outside the synchronous function and are not part of its
state transition. -/

/-- `tipos.Cliente`: a player (hand = `Inventario`). -/
structure Cliente where
  id : String
  nome : String
  inventario : List Carta
deriving DecidableEq, Repr

/-- `tipos.GameEvent` (the signed log entry; timestamp/signature omitted —
they are not read by any modelled operation). -/
structure GameEvent where
  eventSeq : Int
  matchID : String
  eventType : String
  playerID : String
deriving DecidableEq, Repr

/-- First-match lookup in a Go string map modelled as an association list. -/
def lookupA {α : Type} (l : List (String × α)) (k : String) : Option α :=
  (l.find? (fun p => p.1 == k)).map Prod.snd

/-- Go map assignment `m[k] = v`: replace in place, or append if absent. -/
def insertA {α : Type} (l : List (String × α)) (k : String) (v : α) : List (String × α) :=
  if (l.find? (fun p => p.1 == k)).isSome
  then l.map (fun p => if p.1 == k then (k, v) else p)
  else l ++ [(k, v)]

/-- `tipos.Sala`: one match. -/
structure Sala where
  id : String
  jogadores : List Cliente
  estado : String
  cartasNaMesa : List (String × Carta)
  pontosRodada : List (String × Int)
  pontosPartida : List (String × Int)
  numeroRodada : Int
  prontos : List (String × Bool)
  servidorHost : String
  servidorSombra : String
  turnoDe : String
  eventSeq : Int
  eventLog : List GameEvent
deriving DecidableEq, Repr

/-- `tipos.EstadoPartida`: the replication snapshot. -/
structure EstadoPartida where
  salaID : String
  estado : String
  cartasNaMesa : List (String × Carta)
  pontosRodada : List (String × Int)
  pontosPartida : List (String × Int)
  numeroRodada : Int
  prontos : List (String × Bool)
  eventSeq : Int
  eventLog : List GameEvent
  turnoDe : String
deriving DecidableEq, Repr

/-- `tipos.GameEventRequest`; `Data` is the string-field payload
(`carta_id` for plays, `texto` for chat), `none` when malformed. -/
structure GameEventRequest where
  matchID : String
  eventSeq : Int
  eventType : String
  playerID : String
  data : Option (List (String × String))
deriving DecidableEq, Repr

/-- Outbound client notifications emitted during processing. -/
inductive Saida where
  | erroJogada (clienteID : String)
  | atualizacaoJogo
  | receberChat (nome texto : String)
  | fimDeJogo (vencedor : String)
deriving DecidableEq, Repr

/-- The lookup loops `for _, c := range sala.Jogadores { if c.ID == ... }`. -/
def findJogador (jogadores : List Cliente) (pid : String) : Option Cliente :=
  jogadores.find? (fun c => c.id == pid)

/-- The lookup loop over `jogador.Inventario`. -/
def findCarta (inv : List Carta) (cid : String) : Option Carta :=
  inv.find? (fun c => c.id == cid)

/-- `append(inv[:i], inv[i+1:]...)` for the first index whose ID matches. -/
def removeCartaPorID (inv : List Carta) (cid : String) : List Carta :=
  match inv with
  | [] => []
  | c :: resto => if c.id == cid then resto else c :: removeCartaPorID resto cid

/-- In-place mutation through the `jogador` pointer: rewrite the first
entry of `Jogadores` whose ID matches. -/
def atualizaJogador (jogadores : List Cliente) (pid : String) (f : Cliente → Cliente) :
    List Cliente :=
  match jogadores with
  | [] => []
  | j :: resto => if j.id == pid then f j :: resto else j :: atualizaJogador resto pid f

/-- The snapshot built at the end of `processarEventoComoHost`
(`EventSeq: currentEventSeq` equals the mutated `sala.EventSeq`). -/
def criarEstadoPartida (sala : Sala) : EstadoPartida :=
  { salaID := sala.id, estado := sala.estado, cartasNaMesa := sala.cartasNaMesa
  , pontosRodada := sala.pontosRodada, pontosPartida := sala.pontosPartida
  , numeroRodada := sala.numeroRodada, prontos := sala.prontos
  , eventSeq := sala.eventSeq, eventLog := sala.eventLog, turnoDe := sala.turnoDe }

/-- The winner fold of `finalizarPartida`: start from `("EMPATE", -1)`;
a strictly larger score takes the lead, an equal score resets the name to
`"EMPATE"` while keeping the maximum. -/
def finalizarVencedor (pontos : List (String × Int)) : String :=
  (pontos.foldl
    (fun acc p =>
      if p.2 > acc.2 then (p.1, p.2)
      else if p.2 = acc.2 then ("EMPATE", acc.2)
      else acc)
    ("EMPATE", -1)).1

/-- `finalizarPartida`: set `Estado = "FINALIZADO"` (main.go:1746), compute
the winner fold, log it, build the `FIM_DE_JOGO` message — and then call
`sala.Mutex.Lock()` (main.go:1767).  `lockJaDetido` says whether the calling
goroutine already holds the (non-reentrant) match mutex; every real call
chain does (`processarEventoComoHost` locks it at main.go:1379), so the
re-lock blocks the goroutine forever and the message is never published.
Result: (match as mutated so far, notifications actually published,
completion flag — `false` when the goroutine is parked forever at the
re-lock). -/
def finalizarPartida (sala : Sala) (lockJaDetido : Bool) : Sala × List Saida × Bool :=
  let sala2 := { sala with estado := "FINALIZADO" }
  if lockJaDetido then (sala2, [], false)
  else (sala2, [Saida.fimDeJogo (finalizarVencedor sala.pontosRodada)], true)

/-- `resolverJogada` (documented in the source as assuming the match lock is
already held — `lockJaDetido` records that fact for the `finalizarPartida`
call): compare the two table cards, award a round point to the winner,
clear the table, pass the turn to the winner (`mudarTurnoAtomicamente`) or
keep it on a draw, notify, and finish the match when a hand is empty.
Result: (match state, published notifications, completion flag). -/
def resolverJogada (sala : Sala) (lockJaDetido : Bool) : Sala × List Saida × Bool :=
  if sala.cartasNaMesa.length ≠ 2 then (sala, [], true)
  else
    match sala.jogadores with
    | j1 :: j2 :: _ =>
      let c1 := (lookupA sala.cartasNaMesa j1.nome).getD cartaZero
      let c2 := (lookupA sala.cartasNaMesa j2.nome).getD cartaZero
      let resultado := compararCartas c1 c2
      let vencedor : Option Cliente :=
        if resultado > 0 then some j1 else if resultado < 0 then some j2 else none
      let pontos :=
        match vencedor with
        | some v =>
            insertA sala.pontosRodada v.nome ((lookupA sala.pontosRodada v.nome).getD 0 + 1)
        | none => sala.pontosRodada
      let sala2 := { sala with pontosRodada := pontos, cartasNaMesa := [] }
      let sala3 :=
        match vencedor with
        | some v => { sala2 with turnoDe := v.id }
        | none => sala2
      if j1.inventario.length = 0 ∨ j2.inventario.length = 0 then
        let fin := finalizarPartida sala3 lockJaDetido
        (fin.1, Saida.atualizacaoJogo :: fin.2.1, fin.2.2)
      else (sala3, [Saida.atualizacaoJogo], true)
    | _ => (sala, [], true)

/-- `processarEventoComoHost`: the Host-side event processor, which holds
the match lock for its whole body (main.go:1379).  Returns the replication
snapshot (`nil` on rejection), the mutated match, the notifications
published, and a completion flag: `false` exactly when the final-trick
path reached `finalizarPartida`, whose re-lock of the already-held match
mutex (main.go:1767) parks the goroutine forever — in that case no
snapshot is returned or replicated (`none`) and the lock is never
released. -/
def processarEventoComoHost (sala : Sala) (evento : GameEventRequest) :
    Option EstadoPartida × Sala × List Saida × Bool :=
  if evento.eventSeq ≤ sala.eventSeq then (none, sala, [], true)
  else if evento.eventType = "CARD_PLAYED" ∧ sala.estado ≠ "JOGANDO" then
    (none, sala, [Saida.erroJogada evento.playerID], true)
  else if evento.eventType = "CARD_PLAYED" ∧ evento.playerID ≠ sala.turnoDe then
    (none, sala, [Saida.erroJogada evento.playerID], true)
  else
    let sala1 := { sala with eventSeq := sala.eventSeq + 1 }
    match findJogador sala1.jogadores evento.playerID with
    | none => (none, sala1, [], true)
    | some jogador =>
      let logEvent : GameEvent :=
        { eventSeq := sala1.eventSeq, matchID := sala1.id
        , eventType := evento.eventType, playerID := evento.playerID }
      let sala2 := { sala1 with eventLog := sala1.eventLog ++ [logEvent] }
      if evento.eventType = "CARD_PLAYED" then
        match evento.data with
        | none => (none, sala2, [], true)
        | some d =>
          match lookupA d "carta_id" with
          | none => (none, sala2, [], true)
          | some cartaID =>
            if (lookupA sala2.cartasNaMesa jogador.nome).isSome then
              (none, sala2, [], true)
            else
              match findCarta jogador.inventario cartaID with
              | none => (none, sala2, [], true)
              | some carta =>
                let sala3 :=
                  { sala2 with
                    jogadores := atualizaJogador sala2.jogadores evento.playerID
                      (fun j => { j with inventario := removeCartaPorID j.inventario cartaID })
                  , cartasNaMesa := insertA sala2.cartasNaMesa jogador.nome carta }
                if sala3.cartasNaMesa.length = sala3.jogadores.length then
                  let r := resolverJogada sala3 true
                  if r.2.2 then (some (criarEstadoPartida r.1), r.1, r.2.1, true)
                  else (none, r.1, r.2.1, false)
                else
                  let sala4 :=
                    match sala3.jogadores.find? (fun j => j.id != evento.playerID) with
                    | some j => { sala3 with turnoDe := j.id }
                    | none => sala3
                  (some (criarEstadoPartida sala4), sala4, [Saida.atualizacaoJogo], true)
      else if evento.eventType = "PLAYER_READY" then
        let sala3 := { sala2 with prontos := insertA sala2.prontos jogador.nome true }
        (some (criarEstadoPartida sala3), sala3, [], true)
      else if evento.eventType = "CHAT" then
        match evento.data with
        | none => (none, sala2, [], true)
        | some d =>
          match lookupA d "texto" with
          | none => (none, sala2, [], true)
          | some texto =>
            (some (criarEstadoPartida sala2), sala2, [Saida.receberChat jogador.nome texto], true)
      else
        (some (criarEstadoPartida sala2), sala2, [], true)

/-- Go's zero-value `tipos.Sala` created by `ReplicarEstadoComoShadow`
for an unknown match (only `ID` and `Jogadores` set explicitly). -/
def salaVazia (matchID : String) : Sala :=
  { id := matchID, jogadores := [], estado := "", cartasNaMesa := []
  , pontosRodada := [], pontosPartida := [], numeroRodada := 0, prontos := []
  , servidorHost := "", servidorSombra := "", turnoDe := "", eventSeq := 0, eventLog := [] }

/-- `ReplicarEstadoComoShadow`: insert a fresh empty match if unknown, then
accept the snapshot iff its sequence number exceeds the local one. -/
def ReplicarEstadoComoShadow (salas : String → Option Sala) (matchID : String)
    (eventSeq : Int) (state : EstadoPartida) : (String → Option Sala) × Bool :=
  let sala0 := match salas matchID with
    | some sala => sala
    | none => salaVazia matchID
  if eventSeq ≤ sala0.eventSeq then
    (fun k => if k = matchID then some sala0 else salas k, false)
  else
    (fun k =>
      if k = matchID then
        some { sala0 with
               estado := state.estado, cartasNaMesa := state.cartasNaMesa
             , pontosRodada := state.pontosRodada, pontosPartida := state.pontosPartida
             , numeroRodada := state.numeroRodada, prontos := state.prontos
             , eventSeq := eventSeq }
      else salas k, true)

/-- Outcome of an HTTP call from the Shadow to the Host: a response with
some status code, or a timeout / network error. -/
inductive CallResult where
  | ok (status : Nat)
  | networkError
deriving DecidableEq, Repr

/-- `promoverSombraAHost`: under the match lock, take over as Host and
clear the Shadow field, notifying the players; no-op if already Host. -/
def promoverSombraAHost (sala : Sala) (meuEndereco : String) : Sala × List Saida :=
  if sala.servidorHost = meuEndereco then (sala, [])
  else ({ sala with servidorHost := meuEndereco, servidorSombra := "" },
        [Saida.atualizacaoJogo])

/-- `encaminharJogadaParaHost`: the Shadow forwards a card play to the Host
(request built with the optimistic `eventSeq+1` before the call); on a
network error or timeout it promotes itself and processes the same request
locally; on any HTTP response (200 or not) it leaves local state alone. -/
def encaminharJogadaParaHost (sala : Sala) (clienteID cartaID meuEndereco : String)
    (resultado : CallResult) : Sala × List Saida × Bool :=
  let req : GameEventRequest :=
    { matchID := sala.id, eventSeq := sala.eventSeq + 1, eventType := "CARD_PLAYED"
    , playerID := clienteID, data := some [("carta_id", cartaID)] }
  match resultado with
  | CallResult.networkError =>
    let promo := promoverSombraAHost sala meuEndereco
    let r := processarEventoComoHost promo.1 req
    (r.2.1, promo.2 ++ r.2.2.1, r.2.2.2)
  | CallResult.ok _ => (sala, [], true)

/-- `encaminharEventoParaHost`: the generic Shadow→Host forwarder used for
`PLAYER_READY` and `CHAT`.  On a network error it only logs — the promotion
call is commented out in the source — and on any response it also changes
nothing locally. -/
def encaminharEventoParaHost (sala : Sala) (clienteID eventType : String)
    (data : Option (List (String × String))) (meuEndereco : String)
    (resultado : CallResult) : Sala × List Saida × Bool :=
  match resultado with
  | CallResult.networkError => (sala, [], true)
  | CallResult.ok _ => (sala, [], true)

/-! ## Theorems about Shadow replication (C4, C10) -/

/-- C4: for a match the Shadow already holds, the replication is accepted
iff the incoming sequence number strictly exceeds the local one; on
acceptance the phase, table, round points, match points, round number and
ready flags are replaced by the snapshot and the sequence number advances
to the incoming one; otherwise the match map is left completely unchanged. -/
theorem ReplicarEstadoComoShadow_known_match (salas : String → Option Sala)
    (matchID : String) (n : Int) (state : EstadoPartida) (sala : Sala)
    (h : salas matchID = some sala) :
    (ReplicarEstadoComoShadow salas matchID n state).2 = decide (sala.eventSeq < n)
    ∧ (sala.eventSeq < n →
        (ReplicarEstadoComoShadow salas matchID n state).1 matchID =
          some { sala with
                 estado := state.estado, cartasNaMesa := state.cartasNaMesa
               , pontosRodada := state.pontosRodada, pontosPartida := state.pontosPartida
               , numeroRodada := state.numeroRodada, prontos := state.prontos
               , eventSeq := n })
    ∧ (∀ k, k ≠ matchID →
        (ReplicarEstadoComoShadow salas matchID n state).1 k = salas k)
    ∧ (n ≤ sala.eventSeq → (ReplicarEstadoComoShadow salas matchID n state).1 = salas) := by
  unfold ReplicarEstadoComoShadow
  rw [h]
  by_cases hle : n ≤ sala.eventSeq
  · rw [if_pos hle]
    refine ⟨by simp; omega, fun hlt => absurd hlt (by omega), fun k hk => by simp [hk], ?_⟩
    intro _
    funext k
    by_cases hk : k = matchID
    · subst hk
      simp [h]
    · simp [hk]
  · rw [if_neg hle]
    refine ⟨by simp; omega, fun _ => by simp, fun k hk => by simp [hk], ?_⟩
    intro hcontra
    omega

/-- A concrete replication snapshot used by the replication witnesses. -/
def estadoW : EstadoPartida :=
  { salaID := "m1", estado := "JOGANDO", cartasNaMesa := []
  , pontosRodada := [("Alice", 2)], pontosPartida := [], numeroRodada := 3
  , prontos := [("Alice", true), ("Bob", true)], eventSeq := 5, eventLog := []
  , turnoDe := "p1" }

/-- A concrete Shadow-side match with `eventSeq = 3` used by the C4 witness. -/
def salaW : Sala :=
  { salaVazia "m1" with eventSeq := 3, estado := "AGUARDANDO_COMPRA" }

/-- The Shadow match map holding only `salaW`. -/
def salasW : String → Option Sala := fun k => if k = "m1" then some salaW else none

theorem ReplicarEstadoComoShadow_known_match_witness :
    (ReplicarEstadoComoShadow salasW "m1" 5 estadoW).2 = decide (salaW.eventSeq < 5)
    ∧ ((5 : Int) ≤ salaW.eventSeq → (ReplicarEstadoComoShadow salasW "m1" 5 estadoW).1 = salasW) := by
  have h := ReplicarEstadoComoShadow_known_match salasW "m1" 5 estadoW salaW rfl
  exact ⟨h.1, h.2.2.2⟩

/-- C10: replicating to a match the Shadow does not hold never fails with a
missing-match report: the handler first inserts a brand-new zero-valued
match (empty player list, no Host or Shadow address, sequence number 0) and
then applies the snapshot exactly when the replicated sequence number is
strictly positive. -/
theorem ReplicarEstadoComoShadow_unknown_match (salas : String → Option Sala)
    (matchID : String) (n : Int) (state : EstadoPartida)
    (h : salas matchID = none) :
    (ReplicarEstadoComoShadow salas matchID n state).1 matchID =
      some (if 0 < n then
              { salaVazia matchID with
                estado := state.estado, cartasNaMesa := state.cartasNaMesa
              , pontosRodada := state.pontosRodada, pontosPartida := state.pontosPartida
              , numeroRodada := state.numeroRodada, prontos := state.prontos
              , eventSeq := n }
            else salaVazia matchID)
    ∧ (ReplicarEstadoComoShadow salas matchID n state).2 = decide (0 < n)
    ∧ (salaVazia matchID).jogadores = []
    ∧ (salaVazia matchID).servidorHost = ""
    ∧ (salaVazia matchID).servidorSombra = ""
    ∧ (salaVazia matchID).eventSeq = 0 := by
  unfold ReplicarEstadoComoShadow
  rw [h]
  by_cases hle : n ≤ (salaVazia matchID).eventSeq
  · have h0 : ¬ (0 < n) := by
      simp [salaVazia] at hle
      omega
    rw [if_pos hle]
    refine ⟨by simp [h0], by simp [h0], rfl, rfl, rfl, rfl⟩
  · have h0 : 0 < n := by
      simp [salaVazia] at hle
      omega
    rw [if_neg hle]
    refine ⟨by simp [h0], by simp [h0], rfl, rfl, rfl, rfl⟩

/-- The empty Shadow match map used by the C10 witness. -/
def salasVazias : String → Option Sala := fun _ => none

theorem ReplicarEstadoComoShadow_unknown_match_witness :
    (ReplicarEstadoComoShadow salasVazias "m2" 5 estadoW).1 "m2" =
      some (if (0 : Int) < 5 then
              { salaVazia "m2" with
                estado := estadoW.estado, cartasNaMesa := estadoW.cartasNaMesa
              , pontosRodada := estadoW.pontosRodada, pontosPartida := estadoW.pontosPartida
              , numeroRodada := estadoW.numeroRodada, prontos := estadoW.prontos
              , eventSeq := 5 }
            else salaVazia "m2")
    ∧ (ReplicarEstadoComoShadow salasVazias "m2" 5 estadoW).2 = decide ((0 : Int) < 5) := by
  have h := ReplicarEstadoComoShadow_unknown_match salasVazias "m2" 5 estadoW rfl
  exact ⟨h.1, h.2.1⟩

/-! ## Theorems about Shadow→Host forwarding and failover (C3) -/

theorem resolverJogada_preserva_servidores (sala : Sala) (lockJaDetido : Bool) :
    (resolverJogada sala lockJaDetido).1.servidorHost = sala.servidorHost
    ∧ (resolverJogada sala lockJaDetido).1.servidorSombra = sala.servidorSombra := by
  unfold resolverJogada finalizarPartida
  dsimp only
  repeat' split
  all_goals exact ⟨rfl, rfl⟩

theorem processarEvento_preserva_servidores (sala : Sala) (evento : GameEventRequest) :
    (processarEventoComoHost sala evento).2.1.servidorHost = sala.servidorHost
    ∧ (processarEventoComoHost sala evento).2.1.servidorSombra = sala.servidorSombra := by
  unfold processarEventoComoHost
  dsimp only
  repeat' split
  all_goals first
    | exact ⟨rfl, rfl⟩
    | exact resolverJogada_preserva_servidores _ _

/-- C3 (amended): on a timeout or network error while forwarding a card
play, the Shadow promotes itself under the match lock (Host := self,
Shadow := ""), emits an update, and re-executes the same in-flight request
locally as the new Host; on any HTTP response the call is not retried and
no failover occurs.  For the generic event forwarder (used for
`PLAYER_READY` and `CHAT`) a network error triggers neither promotion nor
a retry: the match state is left untouched. -/
theorem encaminhar_failover_spec (sala : Sala) (cid carta et meu : String)
    (d : Option (List (String × String)))
    (hhost : sala.servidorHost ≠ meu) :
    (encaminharJogadaParaHost sala cid carta meu CallResult.networkError).1.servidorHost = meu
    ∧ (encaminharJogadaParaHost sala cid carta meu CallResult.networkError).1.servidorSombra = ""
    ∧ encaminharJogadaParaHost sala cid carta meu CallResult.networkError
        = (let promo := promoverSombraAHost sala meu
           let r := processarEventoComoHost promo.1
             { matchID := sala.id, eventSeq := sala.eventSeq + 1
             , eventType := "CARD_PLAYED", playerID := cid
             , data := some [("carta_id", carta)] }
           (r.2.1, promo.2 ++ r.2.2.1, r.2.2.2))
    ∧ (∀ st : Nat,
        encaminharJogadaParaHost sala cid carta meu (CallResult.ok st) = (sala, [], true))
    ∧ encaminharEventoParaHost sala cid et d meu CallResult.networkError
        = (sala, [], true) := by
  have hpromo : promoverSombraAHost sala meu
      = ({ sala with servidorHost := meu, servidorSombra := "" }, [Saida.atualizacaoJogo]) := by
    unfold promoverSombraAHost
    rw [if_neg hhost]
  refine ⟨?_, ?_, rfl, fun st => rfl, rfl⟩
  · show (processarEventoComoHost (promoverSombraAHost sala meu).1 _).2.1.servidorHost = meu
    rw [hpromo]
    exact (processarEvento_preserva_servidores _ _).1
  · show (processarEventoComoHost (promoverSombraAHost sala meu).1 _).2.1.servidorSombra = ""
    rw [hpromo]
    exact (processarEvento_preserva_servidores _ _).2

/-- A cross-server match as held by the Shadow `servidor2:8080`. -/
def salaC3 : Sala :=
  { salaVazia "m3" with
    estado := "JOGANDO"
  , servidorHost := "servidor1:8080"
  , servidorSombra := "servidor2:8080" }

/-- C3 counterexample: a `CHAT` event forwarded through the generic
Shadow→Host forwarder hits a network error, yet the Shadow neither promotes
itself (the Host field still names the dead Host, the Shadow field is still
set) nor emits any update — refuting "this holds for every event type
forwarded from the Shadow to the Host".  The last conjunct shows what the
promotion would have produced had it been invoked. -/
theorem encaminharEvento_counterexample :
    salaC3.servidorHost = "servidor1:8080"
    ∧ encaminharEventoParaHost salaC3 "p1" "CHAT" (some [("texto", "oi")])
        "servidor2:8080" CallResult.networkError = (salaC3, [], true)
    ∧ (promoverSombraAHost salaC3 "servidor2:8080").1.servidorHost = "servidor2:8080"
    ∧ (promoverSombraAHost salaC3 "servidor2:8080").1.servidorSombra = "" := by
  refine ⟨rfl, rfl, rfl, rfl⟩

theorem encaminhar_failover_spec_witness :
    (encaminharJogadaParaHost salaC3 "p1" "c-9" "servidor2:8080"
        CallResult.networkError).1.servidorHost = "servidor2:8080"
    ∧ (∀ st : Nat, encaminharJogadaParaHost salaC3 "p1" "c-9" "servidor2:8080"
        (CallResult.ok st) = (salaC3, [], true)) := by
  have h := encaminhar_failover_spec salaC3 "p1" "c-9" "CHAT" "servidor2:8080"
    (some [("texto", "oi")]) (by simp [salaC3, salaVazia])
  exact ⟨h.1, h.2.2.2.1⟩

/-! ## Theorems about the Host PlayCard processing (C2) -/

theorem atualizaJogador_length (jogadores : List Cliente) (pid : String)
    (f : Cliente → Cliente) : (atualizaJogador jogadores pid f).length = jogadores.length := by
  induction jogadores with
  | nil => rfl
  | cons j resto ih =>
    unfold atualizaJogador
    by_cases h : (j.id == pid) = true
    · rw [if_pos h]
      rfl
    · rw [if_neg h]
      simp [ih]

/-- The match after the Host has claimed the event: sequence number
advanced by one and the signed event appended to the log (the state the
late validation failures of `processarEventoComoHost` leave behind). -/
def salaAposSeqELog (sala : Sala) (evento : GameEventRequest) : Sala :=
  { sala with
    eventSeq := sala.eventSeq + 1
  , eventLog := sala.eventLog ++
      [{ eventSeq := sala.eventSeq + 1, matchID := sala.id
       , eventType := evento.eventType, playerID := evento.playerID }] }

/-- The corrected conduct of the Host for a `CARD_PLAYED` event with a
fresh sequence number: rejections for a match not in `JOGANDO` or an
out-of-turn player reply `ERRO_JOGADA` to the originator and leave the
match unchanged, but rejections for an already-covered table slot or a
card absent from the hand happen only after the sequence number has been
advanced and the event appended to the log, and send no error; acceptance
removes the card from the hand and places it on the table under the
player's name. -/
def PlayCardConduta (sala : Sala) (evento : GameEventRequest) : Prop :=
  (sala.estado ≠ "JOGANDO" →
    processarEventoComoHost sala evento
      = (none, sala, [Saida.erroJogada evento.playerID], true))
  ∧ (sala.estado = "JOGANDO" → evento.playerID ≠ sala.turnoDe →
    processarEventoComoHost sala evento
      = (none, sala, [Saida.erroJogada evento.playerID], true))
  ∧ (∀ jog : Cliente, ∀ d : List (String × String),
      sala.estado = "JOGANDO" → evento.playerID = sala.turnoDe →
      findJogador sala.jogadores evento.playerID = some jog →
      evento.data = some d → (lookupA d "carta_id").isSome = true →
      (lookupA sala.cartasNaMesa jog.nome).isSome = true →
      processarEventoComoHost sala evento = (none, salaAposSeqELog sala evento, [], true))
  ∧ (∀ jog : Cliente, ∀ d : List (String × String), ∀ cid : String,
      sala.estado = "JOGANDO" → evento.playerID = sala.turnoDe →
      findJogador sala.jogadores evento.playerID = some jog →
      evento.data = some d → lookupA d "carta_id" = some cid →
      lookupA sala.cartasNaMesa jog.nome = none →
      findCarta jog.inventario cid = none →
      processarEventoComoHost sala evento = (none, salaAposSeqELog sala evento, [], true))
  ∧ (∀ jog : Cliente, ∀ d : List (String × String), ∀ cid : String, ∀ carta : Carta,
      sala.estado = "JOGANDO" → evento.playerID = sala.turnoDe →
      findJogador sala.jogadores evento.playerID = some jog →
      evento.data = some d → lookupA d "carta_id" = some cid →
      lookupA sala.cartasNaMesa jog.nome = none →
      findCarta jog.inventario cid = some carta →
      (insertA sala.cartasNaMesa jog.nome carta).length ≠ sala.jogadores.length →
      ((processarEventoComoHost sala evento).2.1.cartasNaMesa
          = insertA sala.cartasNaMesa jog.nome carta
       ∧ (processarEventoComoHost sala evento).2.1.jogadores
          = atualizaJogador sala.jogadores evento.playerID
              (fun j => { j with inventario := removeCartaPorID j.inventario cid })
       ∧ (processarEventoComoHost sala evento).1.isSome = true
       ∧ (processarEventoComoHost sala evento).2.2.2 = true))

/-- C2 (amended): the Host's conduct for a fresh `CARD_PLAYED` event is
exactly `PlayCardConduta`. -/
theorem processarEvento_playCard_spec (sala : Sala) (evento : GameEventRequest)
    (hseq : sala.eventSeq < evento.eventSeq)
    (htipo : evento.eventType = "CARD_PLAYED") :
    PlayCardConduta sala evento := by
  have hnle : ¬ (evento.eventSeq ≤ sala.eventSeq) := by omega
  refine ⟨?_, ?_, ?_, ?_, ?_⟩
  · intro hestado
    unfold processarEventoComoHost
    rw [if_neg hnle, if_pos ⟨htipo, hestado⟩]
  · intro hestado hturno
    unfold processarEventoComoHost
    rw [if_neg hnle, if_neg (fun hx => hx.2 hestado), if_pos ⟨htipo, hturno⟩]
  · intro jog d hestado hturno hjog hdata hcid hmesa
    unfold processarEventoComoHost
    rw [if_neg hnle, if_neg (fun hx => hx.2 hestado),
      if_neg (fun hx => hx.2 hturno)]
    dsimp only
    rw [hjog]
    dsimp only
    rw [if_pos htipo, hdata]
    dsimp only
    rcases Option.isSome_iff_exists.mp hcid with ⟨cid, hcid2⟩
    rw [hcid2]
    dsimp only
    rw [if_pos hmesa]
    rfl
  · intro jog d cid hestado hturno hjog hdata hcid hmesa hcarta
    unfold processarEventoComoHost
    rw [if_neg hnle, if_neg (fun hx => hx.2 hestado),
      if_neg (fun hx => hx.2 hturno)]
    dsimp only
    rw [hjog]
    dsimp only
    rw [if_pos htipo, hdata]
    dsimp only
    rw [hcid]
    dsimp only
    rw [if_neg (by simp [hmesa]), hcarta]
    rfl
  · intro jog d cid carta hestado hturno hjog hdata hcid hmesa hcarta hcheia
    unfold processarEventoComoHost
    rw [if_neg hnle, if_neg (fun hx => hx.2 hestado),
      if_neg (fun hx => hx.2 hturno)]
    dsimp only
    rw [hjog]
    dsimp only
    rw [if_pos htipo, hdata]
    dsimp only
    rw [hcid]
    dsimp only
    rw [if_neg (by simp [hmesa]), hcarta]
    dsimp only
    rw [if_neg (by rw [atualizaJogador_length]; exact hcheia)]
    dsimp only
    cases hfind : (atualizaJogador sala.jogadores evento.playerID
        (fun j => { j with inventario := removeCartaPorID j.inventario cid })).find?
        (fun j => j.id != evento.playerID) with
    | none => exact ⟨rfl, rfl, rfl, rfl⟩
    | some j2 => exact ⟨rfl, rfl, rfl, rfl⟩

/-- The card Alice still holds in hand in the C2 scenario. -/
def cartaMaoC2 : Carta := { id := "c-1", nome := "Dragão", naipe := "♠", valor := 10, raridade := "C" }

/-- The card Alice already has on the table in the C2 scenario. -/
def cartaMesaC2 : Carta := { id := "c-2", nome := "Fênix", naipe := "♥", valor := 9, raridade := "C" }

/-- Alice: turn owner who has already played this trick. -/
def jogadorAC2 : Cliente := { id := "p1", nome := "Alice", inventario := [cartaMaoC2] }

/-- Bob: the opponent. -/
def jogadorBC2 : Cliente := { id := "p2", nome := "Bob", inventario := [] }

/-- A match in `JOGANDO` in which Alice is the turn owner and already holds
the table slot. -/
def salaC2 : Sala :=
  { salaVazia "m-c2" with
    jogadores := [jogadorAC2, jogadorBC2]
  , estado := "JOGANDO"
  , cartasNaMesa := [("Alice", cartaMesaC2)]
  , turnoDe := "p1" }

/-- Alice plays her remaining card although she already played this trick. -/
def eventoC2 : GameEventRequest :=
  { matchID := "m-c2", eventSeq := 1, eventType := "CARD_PLAYED", playerID := "p1"
  , data := some [("carta_id", "c-1")] }

/-- The log entry the Host records for `eventoC2` before rejecting it. -/
def logC2 : GameEvent :=
  { eventSeq := 1, matchID := "m-c2", eventType := "CARD_PLAYED", playerID := "p1" }

/-- C2 counterexample: a `PlayCard` rejected because the player already has
a card on the table this trick (match in `Playing`, correct turn owner,
card in hand) leaves the match with its sequence number advanced and the
event appended to the log, and sends no error at all — refuting "on every
such rejection the originator is sent an ERROR and the match state
(including eventSeq and the event log) is left unchanged". -/
theorem processarEvento_counterexample :
    salaC2.estado = "JOGANDO"
    ∧ salaC2.turnoDe = eventoC2.playerID
    ∧ findCarta jogadorAC2.inventario "c-1" = some cartaMaoC2
    ∧ (lookupA salaC2.cartasNaMesa "Alice").isSome = true
    ∧ (processarEventoComoHost salaC2 eventoC2).1 = none
    ∧ salaC2.eventSeq = 0
    ∧ (processarEventoComoHost salaC2 eventoC2).2.1.eventSeq = 1
    ∧ salaC2.eventLog = []
    ∧ (processarEventoComoHost salaC2 eventoC2).2.1.eventLog = [logC2]
    ∧ (processarEventoComoHost salaC2 eventoC2).2.2.1 = [] := by
  exact ⟨rfl, rfl, rfl, rfl, rfl, rfl, rfl, rfl, rfl, rfl⟩

theorem processarEvento_playCard_spec_witness :
    salaC2.eventSeq < eventoC2.eventSeq ∧ PlayCardConduta salaC2 eventoC2 :=
  ⟨by decide, processarEvento_playCard_spec salaC2 eventoC2 (by decide) rfl⟩

/-! ## Theorems about trick resolution and match finalisation (C8) -/

theorem perm_pair {α : Type} {x y : α} {l : List α} (h : l.Perm [x, y]) :
    l = [x, y] ∨ l = [y, x] := by
  have hlen : l.length = 2 := by simpa using h.length_eq
  rcases l with _ | ⟨u, _ | ⟨v, _ | ⟨w, rest⟩⟩⟩
  · simp at hlen
  · simp at hlen
  · have hu : u ∈ [x, y] := h.mem_iff.mp (by simp)
    rcases List.mem_cons.mp hu with h1 | h1
    · subst h1
      left
      have h2 : [v].Perm [y] := h.cons_inv
      rw [List.perm_singleton.mp h2]
    · have h1 : u = y := by simpa using h1
      subst h1
      right
      have h2 : ([u, v]).Perm [u, x] := h.trans (List.Perm.swap x u []).symm
      rw [List.perm_singleton.mp h2.cons_inv]
  · simp at hlen

/-- The shape of a reachable `PontosRodada` map of a two-player match:
an entry per player holding a strictly positive score (entries are only
ever created by the `++` increment in `resolverJogada`). -/
def pontosIniciais (a : String) (pa : Int) (b : String) (pb : Int) : List (String × Int) :=
  (if 0 < pa then [(a, pa)] else []) ++ (if 0 < pb then [(b, pb)] else [])

theorem finalizarVencedor_pontos (a b : String) (pa pb : Int) (hab : a ≠ b)
    (hpa : 0 ≤ pa) (hpb : 0 ≤ pb) (l : List (String × Int))
    (hl : l.Perm (pontosIniciais a pa b pb)) :
    finalizarVencedor l = (if pb < pa then a else if pa < pb then b else "EMPATE") := by
  unfold pontosIniciais at hl
  by_cases h1 : 0 < pa <;> by_cases h2 : 0 < pb
  · rw [if_pos h1, if_pos h2] at hl
    simp only [List.singleton_append] at hl
    rcases perm_pair hl with h | h <;> subst h <;>
      · unfold finalizarVencedor
        simp only [List.foldl]
        split_ifs <;> first | rfl | omega
  · rw [if_pos h1, if_neg h2, List.append_nil] at hl
    rw [List.perm_singleton.mp hl]
    unfold finalizarVencedor
    simp only [List.foldl]
    split_ifs <;> first | rfl | omega
  · rw [if_neg h1, if_pos h2, List.nil_append] at hl
    rw [List.perm_singleton.mp hl]
    unfold finalizarVencedor
    simp only [List.foldl]
    split_ifs <;> first | rfl | omega
  · rw [if_neg h1, if_neg h2, List.append_nil] at hl
    rw [hl.eq_nil]
    unfold finalizarVencedor
    simp only [List.foldl]
    split_ifs <;> first | rfl | omega

theorem insertA_incrementa_a (a b : String) (pa pb : Int) (hab : a ≠ b)
    (hpa : 0 ≤ pa) (hpb : 0 ≤ pb) :
    (insertA (pontosIniciais a pa b pb) a
      ((lookupA (pontosIniciais a pa b pb) a).getD 0 + 1)).Perm
      (pontosIniciais a (pa + 1) b pb) := by
  have hba : (b == a) = false := beq_eq_false_iff_ne.mpr (Ne.symm hab)
  have hba2 : b ≠ a := Ne.symm hab
  by_cases h1 : 0 < pa <;> by_cases h2 : 0 < pb
  · have e1 : insertA (pontosIniciais a pa b pb) a
        ((lookupA (pontosIniciais a pa b pb) a).getD 0 + 1) = [(a, pa + 1), (b, pb)] := by
      simp [pontosIniciais, insertA, lookupA, List.find?, h1, h2, hba, hba2]
    have e2 : pontosIniciais a (pa + 1) b pb = [(a, pa + 1), (b, pb)] := by
      simp [pontosIniciais, h2, show 0 < pa + 1 by omega]
    rw [e1, e2]
  · have hpb0 : pb = 0 := by omega
    subst hpb0
    have e1 : insertA (pontosIniciais a pa b 0) a
        ((lookupA (pontosIniciais a pa b 0) a).getD 0 + 1) = [(a, pa + 1)] := by
      simp [pontosIniciais, insertA, lookupA, List.find?, h1]
    have e2 : pontosIniciais a (pa + 1) b 0 = [(a, pa + 1)] := by
      simp [pontosIniciais, show 0 < pa + 1 by omega]
    rw [e1, e2]
  · have hpa0 : pa = 0 := by omega
    subst hpa0
    have e1 : insertA (pontosIniciais a 0 b pb) a
        ((lookupA (pontosIniciais a 0 b pb) a).getD 0 + 1) = [(b, pb), (a, 1)] := by
      simp [pontosIniciais, insertA, lookupA, List.find?, h2, hba, hba2]
    have e2 : pontosIniciais a (0 + 1) b pb = [(a, 1), (b, pb)] := by
      simp [pontosIniciais, h2]
    rw [e1, e2]
    exact List.Perm.swap _ _ _
  · have hpa0 : pa = 0 := by omega
    have hpb0 : pb = 0 := by omega
    subst hpa0
    subst hpb0
    have e1 : insertA (pontosIniciais a 0 b 0) a
        ((lookupA (pontosIniciais a 0 b 0) a).getD 0 + 1) = [(a, 1)] := by
      simp [pontosIniciais, insertA, lookupA, List.find?]
    have e2 : pontosIniciais a (0 + 1) b 0 = [(a, 1)] := by
      simp [pontosIniciais]
    rw [e1, e2]

theorem insertA_incrementa_b (a b : String) (pa pb : Int) (hab : a ≠ b)
    (hpa : 0 ≤ pa) (hpb : 0 ≤ pb) :
    (insertA (pontosIniciais a pa b pb) b
      ((lookupA (pontosIniciais a pa b pb) b).getD 0 + 1)).Perm
      (pontosIniciais a pa b (pb + 1)) := by
  have hab2 : (a == b) = false := beq_eq_false_iff_ne.mpr hab
  by_cases h1 : 0 < pa <;> by_cases h2 : 0 < pb
  · have e1 : insertA (pontosIniciais a pa b pb) b
        ((lookupA (pontosIniciais a pa b pb) b).getD 0 + 1) = [(a, pa), (b, pb + 1)] := by
      simp [pontosIniciais, insertA, lookupA, List.find?, h1, h2, hab2, hab]

    have e2 : pontosIniciais a pa b (pb + 1) = [(a, pa), (b, pb + 1)] := by
      simp [pontosIniciais, h1, show 0 < pb + 1 by omega]
    rw [e1, e2]
  · have hpb0 : pb = 0 := by omega
    subst hpb0
    have e1 : insertA (pontosIniciais a pa b 0) b
        ((lookupA (pontosIniciais a pa b 0) b).getD 0 + 1) = [(a, pa), (b, 1)] := by
      simp [pontosIniciais, insertA, lookupA, List.find?, h1, hab2]
    have e2 : pontosIniciais a pa b (0 + 1) = [(a, pa), (b, 1)] := by
      simp [pontosIniciais, h1]
    rw [e1, e2]
  · have hpa0 : pa = 0 := by omega
    subst hpa0
    have e1 : insertA (pontosIniciais a 0 b pb) b
        ((lookupA (pontosIniciais a 0 b pb) b).getD 0 + 1) = [(b, pb + 1)] := by
      simp [pontosIniciais, insertA, lookupA, List.find?, h2]
    have e2 : pontosIniciais a 0 b (pb + 1) = [(b, pb + 1)] := by
      simp [pontosIniciais, show 0 < pb + 1 by omega]
    rw [e1, e2]
  · have hpb0 : pb = 0 := by omega
    have hpa0 : pa = 0 := by omega
    subst hpb0
    subst hpa0
    have e1 : insertA (pontosIniciais a 0 b 0) b
        ((lookupA (pontosIniciais a 0 b 0) b).getD 0 + 1) = [(b, 1)] := by
      simp [pontosIniciais, insertA, lookupA, List.find?]
    have e2 : pontosIniciais a 0 b (0 + 1) = [(b, 1)] := by
      simp [pontosIniciais]
    rw [e1, e2]

/-- The winner the specification demands once the final trick's point has
been awarded: the player with strictly more round points, `"EMPATE"` on a
tie. -/
def vencedorEsperado (j1 j2 : Cliente) (c1 c2 : Carta) (pa pb : Int) : String :=
  if pb + (if compararCartas c1 c2 < 0 then 1 else 0)
      < pa + (if 0 < compararCartas c1 c2 then 1 else 0) then j1.nome
  else if pa + (if 0 < compararCartas c1 c2 then 1 else 0)
      < pb + (if compararCartas c1 c2 < 0 then 1 else 0) then j2.nome
  else "EMPATE"

/-- C8 support: when the trick resolves with both cards on the table and a
hand is empty, under the match lock — which every real invocation holds
(`processarEventoComoHost` acquires it at main.go:1379) — the match reaches
`FINALIZADO` and the winner fold computes (and the code logs) the player
with strictly more round points (ties, including zero, give `"EMPATE"`),
invariantly under any permutation (iteration order) of the round-points
map; but the goroutine never completes: `finalizarPartida` re-locks the
held mutex (main.go:1767), so only the trick-result update is published
and `FIM_DE_JOGO` never is. -/
theorem resolverJogada_finaliza (j1 j2 : Cliente) (c1 c2 : Carta) (pa pb : Int) (sala : Sala)
    (hjog : sala.jogadores = [j1, j2])
    (hnomes : j1.nome ≠ j2.nome)
    (hmesa : sala.cartasNaMesa = [(j1.nome, c1), (j2.nome, c2)])
    (hpontos : sala.pontosRodada = pontosIniciais j1.nome pa j2.nome pb)
    (hpa : 0 ≤ pa) (hpb : 0 ≤ pb)
    (hfim : j1.inventario = [] ∨ j2.inventario = []) :
    (resolverJogada sala true).1.estado = "FINALIZADO"
    ∧ (resolverJogada sala true).2.1 = [Saida.atualizacaoJogo]
    ∧ (resolverJogada sala true).2.2 = false
    ∧ ∀ l : List (String × Int), l.Perm (resolverJogada sala true).1.pontosRodada →
        finalizarVencedor l = vencedorEsperado j1 j2 c1 c2 pa pb := by
  have hn12 : (j1.nome == j2.nome) = false := beq_eq_false_iff_ne.mpr hnomes
  have hl1 : lookupA [(j1.nome, c1), (j2.nome, c2)] j1.nome = some c1 := by
    simp [lookupA, List.find?]
  have hl2 : lookupA [(j1.nome, c1), (j2.nome, c2)] j2.nome = some c2 := by
    simp [lookupA, List.find?, hn12]
  have hinv : (j1.inventario.length = 0 ∨ j2.inventario.length = 0) := by
    rcases hfim with h | h <;> simp [h]
  unfold resolverJogada
  rw [hmesa, hjog, hpontos]
  dsimp only
  rw [if_neg (show ¬ (([(j1.nome, c1), (j2.nome, c2)] : List (String × Carta)).length ≠ 2)
      by simp), hl1, hl2]
  simp only [Option.getD_some]
  rcases lt_trichotomy (compararCartas c1 c2) 0 with hc | hc | hc
  · rw [if_neg (show ¬ (compararCartas c1 c2 > 0) by omega), if_pos hc]
    dsimp only
    rw [if_pos hinv]
    have hperm := insertA_incrementa_b j1.nome j2.nome pa pb hnomes hpa hpb
    have hfv : ∀ l : List (String × Int),
        l.Perm (insertA (pontosIniciais j1.nome pa j2.nome pb) j2.nome
          ((lookupA (pontosIniciais j1.nome pa j2.nome pb) j2.nome).getD 0 + 1)) →
        finalizarVencedor l = vencedorEsperado j1 j2 c1 c2 pa pb := by
      intro l hl
      rw [finalizarVencedor_pontos j1.nome j2.nome pa (pb + 1) hnomes hpa (by omega) l
        (hl.trans hperm)]
      simp [vencedorEsperado, hc, show ¬ (0 < compararCartas c1 c2) by omega]
    dsimp only [finalizarPartida]
    exact ⟨rfl, rfl, rfl, fun l hl => hfv l hl⟩
  · rw [if_neg (show ¬ (compararCartas c1 c2 > 0) by omega),
      if_neg (show ¬ (compararCartas c1 c2 < 0) by omega)]
    dsimp only
    rw [if_pos hinv]
    have hfv : ∀ l : List (String × Int),
        l.Perm (pontosIniciais j1.nome pa j2.nome pb) →
        finalizarVencedor l = vencedorEsperado j1 j2 c1 c2 pa pb := by
      intro l hl
      rw [finalizarVencedor_pontos j1.nome j2.nome pa pb hnomes hpa hpb l hl]
      simp [vencedorEsperado, hc]
    dsimp only [finalizarPartida]
    exact ⟨rfl, rfl, rfl, fun l hl => hfv l hl⟩
  · rw [if_pos hc]
    dsimp only
    rw [if_pos hinv]
    have hperm := insertA_incrementa_a j1.nome j2.nome pa pb hnomes hpa hpb
    have hfv : ∀ l : List (String × Int),
        l.Perm (insertA (pontosIniciais j1.nome pa j2.nome pb) j1.nome
          ((lookupA (pontosIniciais j1.nome pa j2.nome pb) j1.nome).getD 0 + 1)) →
        finalizarVencedor l = vencedorEsperado j1 j2 c1 c2 pa pb := by
      intro l hl
      rw [finalizarVencedor_pontos j1.nome j2.nome (pa + 1) pb hnomes (by omega) hpb l
        (hl.trans hperm)]
      simp [vencedorEsperado, hc, show ¬ (compararCartas c1 c2 < 0) by omega]
    dsimp only [finalizarPartida]
    exact ⟨rfl, rfl, rfl, fun l hl => hfv l hl⟩

/-- Alice with an empty hand (final trick just resolved). -/
def jogadorAC8 : Cliente := { id := "p1", nome := "Alice", inventario := [] }

/-- Bob with an empty hand. -/
def jogadorBC8 : Cliente := { id := "p2", nome := "Bob", inventario := [] }

/-- Alice's table card (power 10). -/
def carta1C8 : Carta := { id := "x1", nome := "Dragão", naipe := "♠", valor := 10, raridade := "C" }

/-- Bob's table card (power 5). -/
def carta2C8 : Carta := { id := "x2", nome := "Mago", naipe := "♥", valor := 5, raridade := "C" }

/-- A match about to resolve its final trick. -/
def salaC8 : Sala :=
  { salaVazia "m-c8" with
    jogadores := [jogadorAC8, jogadorBC8]
  , estado := "JOGANDO"
  , cartasNaMesa := [("Alice", carta1C8), ("Bob", carta2C8)] }

theorem resolverJogada_finaliza_witness :
    (resolverJogada salaC8 true).1.estado = "FINALIZADO"
    ∧ (resolverJogada salaC8 true).2.1 = [Saida.atualizacaoJogo]
    ∧ (resolverJogada salaC8 true).2.2 = false := by
  have h := resolverJogada_finaliza jogadorAC8 jogadorBC8 carta1C8 carta2C8 0 0 salaC8
    rfl (by decide) rfl (by decide) (by decide) (by decide) (Or.inl rfl)
  exact ⟨h.1, h.2.1, h.2.2.1⟩

/-- C8: the final trick of the concrete match `salaC8`, processed — as every
real call is — with the match lock held.  The code sets
`Estado = "FINALIZADO"` and its winner fold computes (and logs) `"Alice"`,
exactly the strictly-more-round-points winner the claim demands; but the
run never completes (`completou = false`): `finalizarPartida` blocks forever
re-locking the held match mutex at main.go:1767, so only the trick-result
update is published and the `FIM_DE_JOGO` declaration never reaches the
players.  The last two conjuncts show the lock-free run — impossible in the
program — would have published exactly that declaration. -/
theorem resolverJogada_deadlock :
    salaC8.estado = "JOGANDO"
    ∧ jogadorAC8.inventario = []
    ∧ (resolverJogada salaC8 true).1.estado = "FINALIZADO"
    ∧ (resolverJogada salaC8 true).2.1 = [Saida.atualizacaoJogo]
    ∧ (resolverJogada salaC8 true).2.2 = false
    ∧ finalizarVencedor (resolverJogada salaC8 true).1.pontosRodada = "Alice"
    ∧ vencedorEsperado jogadorAC8 jogadorBC8 carta1C8 carta2C8 0 0 = "Alice"
    ∧ (resolverJogada salaC8 false).2.1
        = [Saida.atualizacaoJogo, Saida.fimDeJogo "Alice"]
    ∧ (resolverJogada salaC8 false).2.2 = true := by
  exact ⟨rfl, rfl, rfl, rfl, rfl, rfl, rfl, rfl, rfl⟩

/-! ## Leader election: the vote handler (C6) -/

/-- `handleSolicitarVoto`: adopt and grant iff the candidate's term strictly
exceeds our own; the reply carries the grant flag and our (possibly updated)
term.  Result: (new `TermoAtual`, `voto_concedido`, replied `termo`). -/
def handleSolicitarVoto (termoAtual termo : Int) : Int × Bool × Int :=
  if termo > termoAtual then (termo, true, termo)
  else (termoAtual, false, termoAtual)

/-- The request terms a node grants while processing a sequence of vote
requests through `handleSolicitarVoto`, threading its `TermoAtual`. -/
def votosConcedidos (termoAtual : Int) : List Int → List Int
  | [] => []
  | t :: ts =>
    let r := handleSolicitarVoto termoAtual t
    if r.2.1 then t :: votosConcedidos r.1 ts else votosConcedidos r.1 ts

theorem votosConcedidos_mem : ∀ {reqs : List Int} {cur x : Int},
    x ∈ votosConcedidos cur reqs → cur < x := by
  intro reqs
  induction reqs with
  | nil =>
    intro cur x h
    simp [votosConcedidos] at h
  | cons t ts ih =>
    intro cur x h
    unfold votosConcedidos handleSolicitarVoto at h
    dsimp only at h
    by_cases hgt : t > cur
    · rw [if_pos hgt] at h
      simp at h
      rcases h with h | h
      · omega
      · have := ih h
        omega
    · rw [if_neg hgt] at h
      simp at h
      exact ih h

theorem votosConcedidos_count : ∀ (reqs : List Int) (cur t : Int),
    (votosConcedidos cur reqs).count t ≤ 1 := by
  intro reqs
  induction reqs with
  | nil =>
    intro cur t
    simp [votosConcedidos]
  | cons q ts ih =>
    intro cur t
    unfold votosConcedidos handleSolicitarVoto
    dsimp only
    by_cases hgt : q > cur
    · rw [if_pos hgt]
      simp only [if_true, List.count_cons]
      by_cases hq : t = q
      · subst hq
        have hnot : t ∉ votosConcedidos t ts := by
          intro hm
          exact absurd (votosConcedidos_mem hm) (lt_irrefl t)
        rw [List.count_eq_zero.mpr hnot]
        simp
      · have hbeq : (q == t) = false := beq_eq_false_iff_ne.mpr (Ne.symm hq)
        rw [hbeq]
        simpa using ih q t
    · rw [if_neg hgt]
      exact ih cur t

/-- C6: processing `RequestVote{c, t}` grants and adopts exactly when `t`
strictly exceeds the node's own term — the adopted term is `max own t`,
and the reply always carries the node's resulting term; consequently a
node grants at most one vote per term over any request sequence. -/
theorem handleSolicitarVoto_spec :
    (∀ cur t : Int, (handleSolicitarVoto cur t).2.1 = decide (cur < t))
    ∧ (∀ cur t : Int, (handleSolicitarVoto cur t).1 = max cur t)
    ∧ (∀ cur t : Int, (handleSolicitarVoto cur t).2.2 = (handleSolicitarVoto cur t).1)
    ∧ (∀ cur t : Int, handleSolicitarVoto cur t
        = if t > cur then (t, true, t) else (cur, false, cur))
    ∧ ∀ (reqs : List Int) (cur t : Int), (votosConcedidos cur reqs).count t ≤ 1 := by
  refine ⟨?_, ?_, ?_, fun cur t => rfl, votosConcedidos_count⟩
  · intro cur t
    unfold handleSolicitarVoto
    by_cases h : t > cur
    · rw [if_pos h]
      simp [h]
    · rw [if_neg h]
      simp
      omega
  · intro cur t
    unfold handleSolicitarVoto
    by_cases h : t > cur
    · rw [if_pos h]
      exact (max_eq_right (le_of_lt h)).symm
    · rw [if_neg h]
      exact (max_eq_left (by omega)).symm
  · intro cur t
    unfold handleSolicitarVoto
    by_cases h : t > cur
    · rw [if_pos h]
    · rw [if_neg h]

/-! ## Leader election: the cluster-level protocol (C1)

The protocol of part_002 as a transition system over a fixed set of nodes
with identical, complete membership views (divergent views only widen the
behaviour).  Per-node state is the `mutexLider`-guarded record (term,
self-is-leader flag, known leader); the `candidaturas`, `votos` and
`anuncios` ledgers record which candidacies were started
(`iniciarEleicao` incrementing the term), which grants each candidacy
collected (`handleSolicitarVoto`, which adopts the term but — as in the
source — NEVER clears `SouLider`), and which leader announcements were
broadcast (`tornarLider`).  `declararLider` delivers an announcement
(`handleDeclararLider`).  Heartbeats only add further transitions and are
omitted. -/

/-- The cluster-wide election state. -/
structure ElConfig (Node : Type) [DecidableEq Node] where
  termo : Node → Int
  souLider : Node → Bool
  liderAtual : Node → Option Node
  candidaturas : Node → Finset Int
  votos : Node → Int → Finset Node
  anuncios : Finset (Node × Int)

/-- One step of the implemented election protocol. -/
inductive ElStep {Node : Type} [DecidableEq Node] [Fintype Node] :
    ElConfig Node → ElConfig Node → Prop
  | iniciarEleicao (cfg : ElConfig Node) (c : Node) (h : cfg.souLider c = false) :
      ElStep cfg { cfg with
        termo := Function.update cfg.termo c (cfg.termo c + 1)
      , candidaturas := Function.update cfg.candidaturas c
          (insert (cfg.termo c + 1) (cfg.candidaturas c)) }
  | concederVoto (cfg : ElConfig Node) (j c : Node) (t : Int)
      (hcand : t ∈ cfg.candidaturas c) (hne : c ≠ j) (hgt : cfg.termo j < t) :
      ElStep cfg { cfg with
        termo := Function.update cfg.termo j t
      , votos := fun c2 t2 =>
          if c2 = c ∧ t2 = t then insert j (cfg.votos c t) else cfg.votos c2 t2 }
  | tornarLider (cfg : ElConfig Node) (c : Node) (t : Int)
      (hcand : t ∈ cfg.candidaturas c)
      (hmaioria : Fintype.card Node < 2 * (insert c (cfg.votos c t)).card) :
      ElStep cfg { cfg with
        termo := Function.update cfg.termo c t
      , souLider := Function.update cfg.souLider c true
      , liderAtual := Function.update cfg.liderAtual c (some c)
      , anuncios := insert (c, t) cfg.anuncios }
  | declararLider (cfg : ElConfig Node) (j c : Node) (t : Int)
      (hanuncio : (c, t) ∈ cfg.anuncios) (hge : cfg.termo j ≤ t) :
      ElStep cfg { cfg with
        termo := Function.update cfg.termo j t
      , souLider := Function.update cfg.souLider j (decide (c = j))
      , liderAtual := Function.update cfg.liderAtual j (some c) }

/-- Boot state: every node a follower at term 0. -/
def elInit (Node : Type) [DecidableEq Node] : ElConfig Node :=
  { termo := fun _ => 0, souLider := fun _ => false, liderAtual := fun _ => none
  , candidaturas := fun _ => ∅, votos := fun _ _ => ∅, anuncios := ∅ }

/-- Reachability from boot under the implemented protocol. -/
def ElReachable {Node : Type} [DecidableEq Node] [Fintype Node]
    (cfg : ElConfig Node) : Prop :=
  Relation.ReflTransGen ElStep (elInit Node) cfg

/-- Node 0 starts an election (term 1). -/
def cfgA : ElConfig (Fin 2) :=
  { elInit (Fin 2) with
    termo := Function.update (elInit (Fin 2)).termo 0 ((elInit (Fin 2)).termo 0 + 1)
  , candidaturas := Function.update (elInit (Fin 2)).candidaturas 0
      (insert ((elInit (Fin 2)).termo 0 + 1) ((elInit (Fin 2)).candidaturas 0)) }

/-- Node 1 grants node 0 its vote for term 1. -/
def cfgB : ElConfig (Fin 2) :=
  { cfgA with
    termo := Function.update cfgA.termo 1 1
  , votos := fun c2 t2 => if c2 = 0 ∧ t2 = 1 then insert 1 (cfgA.votos 0 1) else cfgA.votos c2 t2 }

/-- Node 0 wins term 1 and becomes leader. -/
def cfgC : ElConfig (Fin 2) :=
  { cfgB with
    termo := Function.update cfgB.termo 0 1
  , souLider := Function.update cfgB.souLider 0 true
  , liderAtual := Function.update cfgB.liderAtual 0 (some 0)
  , anuncios := insert (0, 1) cfgB.anuncios }

/-- Node 1 — which has not yet received the announcement — starts an
election at term 2. -/
def cfgD : ElConfig (Fin 2) :=
  { cfgC with
    termo := Function.update cfgC.termo 1 (cfgC.termo 1 + 1)
  , candidaturas := Function.update cfgC.candidaturas 1
      (insert (cfgC.termo 1 + 1) (cfgC.candidaturas 1)) }

/-- Node 0 — the sitting leader — grants node 1 its vote for term 2,
adopting term 2 but keeping `SouLider = true` (as `handleSolicitarVoto`
does). -/
def cfgE : ElConfig (Fin 2) :=
  { cfgD with
    termo := Function.update cfgD.termo 0 2
  , votos := fun c2 t2 => if c2 = 1 ∧ t2 = 2 then insert 0 (cfgD.votos 1 2) else cfgD.votos c2 t2 }

/-- Node 1 wins term 2 and becomes leader: both nodes now consider
themselves Leader at term 2. -/
def cfgF : ElConfig (Fin 2) :=
  { cfgE with
    termo := Function.update cfgE.termo 1 2
  , souLider := Function.update cfgE.souLider 1 true
  , liderAtual := Function.update cfgE.liderAtual 1 (some 1)
  , anuncios := insert (1, 2) cfgE.anuncios }

/-- C1: a reachable configuration of the implemented protocol in which the
two distinct nodes 0 and 1 of a two-node cluster simultaneously consider
themselves Leader at the same term 2 — the claimed invariant fails because
granting a vote (`handleSolicitarVoto`) adopts the higher term without
clearing the `SouLider` flag, and node 1's announcement has not yet been
delivered to node 0. -/
theorem eleicao_counterexample :
    ElReachable cfgF
    ∧ cfgF.souLider 0 = true ∧ cfgF.souLider 1 = true
    ∧ cfgF.termo 0 = 2 ∧ cfgF.termo 1 = 2 := by
  refine ⟨?_, by decide, by decide, by decide, by decide⟩
  have h1 : ElStep (elInit (Fin 2)) cfgA := ElStep.iniciarEleicao _ 0 (by decide)
  have h2 : ElStep cfgA cfgB := ElStep.concederVoto _ 1 0 1 (by decide) (by decide) (by decide)
  have h3 : ElStep cfgB cfgC := ElStep.tornarLider _ 0 1 (by decide) (by decide)
  have h4 : ElStep cfgC cfgD := ElStep.iniciarEleicao _ 1 (by decide)
  have h5 : ElStep cfgD cfgE := ElStep.concederVoto _ 0 1 2 (by decide) (by decide) (by decide)
  have h6 : ElStep cfgE cfgF := ElStep.tornarLider _ 1 2 (by decide) (by decide)
  exact (((((Relation.ReflTransGen.refl.tail h1).tail h2).tail h3).tail h4).tail h5).tail h6

end JogoDistribuido
